import Mathlib

/-!
Shallow embedding of the x509-certificate crate (algorithm registry and
certificate model) for checking its natural-language specification.

Translation notes:

* Machine byte strings are `List Nat`; every byte produced by the code is
  below 256, but no claim depends on the bound, so we do not thread it.
* `bcder::Oid` wraps the DER-encoded content octets of an object
  identifier; we model it as the content byte list.
* Rust `Result<T, X509CertificateError>` becomes `Except Error T`.
* The ring cryptography library (digesting and signature verification) is
  an external collaborator of this crate. Its two entry points used by the
  code under proof are passed explicitly: a digest function
  `DigestAlgorithm -> message -> digest` and a verification function
  `VerificationAlgorithm -> public key -> message -> signature -> Bool`.
  Every theorem quantifies over these collaborator functions.
* Error variants carry the values the source interpolates into its error
  strings; where the source formats an OID we keep a deterministic
  rendering of the content bytes.
-/

deriving instance DecidableEq for Except

namespace X509

/-- Content octets of a DER-encoded object identifier (`bcder::Oid`). -/
abbrev Oid := List Nat

/-- SHA-1 digest algorithm, 1.3.14.3.2.26. -/
def OID_SHA1 : Oid := [43, 14, 3, 2, 26]

/-- SHA-256 digest algorithm, 2.16.840.1.101.3.4.2.1. -/
def OID_SHA256 : Oid := [96, 134, 72, 1, 101, 3, 4, 2, 1]

/-- SHA-384 digest algorithm, 2.16.840.1.101.3.4.2.2. -/
def OID_SHA384 : Oid := [96, 134, 72, 1, 101, 3, 4, 2, 2]

/-- SHA-512 digest algorithm, 2.16.840.1.101.3.4.2.3. -/
def OID_SHA512 : Oid := [96, 134, 72, 1, 101, 3, 4, 2, 3]

/-- RSA+SHA-1 encryption, 1.2.840.113549.1.1.5. -/
def OID_SHA1_RSA : Oid := [42, 134, 72, 134, 247, 13, 1, 1, 5]

/-- RSA+SHA-256 encryption, 1.2.840.113549.1.1.11. -/
def OID_SHA256_RSA : Oid := [42, 134, 72, 134, 247, 13, 1, 1, 11]

/-- RSA+SHA-384 encryption, 1.2.840.113549.1.1.12. -/
def OID_SHA384_RSA : Oid := [42, 134, 72, 134, 247, 13, 1, 1, 12]

/-- RSA+SHA-512 encryption, 1.2.840.113549.1.1.13. -/
def OID_SHA512_RSA : Oid := [42, 134, 72, 134, 247, 13, 1, 1, 13]

/-- RSA encryption, 1.2.840.113549.1.1.1. -/
def OID_RSA : Oid := [42, 134, 72, 134, 247, 13, 1, 1, 1]

/-- ECDSA with SHA-256, 1.2.840.10045.4.3.2. -/
def OID_ECDSA_SHA256 : Oid := [42, 134, 72, 206, 61, 4, 3, 2]

/-- ECDSA with SHA-384, 1.2.840.10045.4.3.3. -/
def OID_ECDSA_SHA384 : Oid := [42, 134, 72, 206, 61, 4, 3, 3]

/-- Elliptic curve public key cryptography, 1.2.840.10045.2.1. -/
def OID_EC_PUBLIC_KEY : Oid := [42, 134, 72, 206, 61, 2, 1]

/-- ED25519 key agreement, 1.3.101.110. -/
def OID_ED25519_KEY_AGREEMENT : Oid := [43, 101, 110]

/-- Edwards curve digital signature algorithm, 1.3.101.112. -/
def OID_ED25519_SIGNATURE_ALGORITHM : Oid := [43, 101, 112]

/-- Elliptic curve identifier for secp256r1, 1.2.840.10045.3.1.7. -/
def OID_EC_SECP256R1 : Oid := [42, 134, 72, 206, 61, 3, 1, 7]

/-- Elliptic curve identifier for secp384r1, 1.3.132.0.34. -/
def OID_EC_SECP384R1 : Oid := [43, 129, 4, 0, 34]

/-- No signature identifier, 1.3.6.1.5.5.7.6.2. -/
def OID_NO_SIGNATURE_ALGORITHM : Oid := [43, 6, 1, 5, 5, 7, 6, 2]

/-- A hashing algorithm used for digesting data (`DigestAlgorithm`). -/
inductive DigestAlgorithm
  | Sha1
  | Sha256
  | Sha384
  | Sha512
deriving DecidableEq

/-- Represents a known curve used with ECDSA (`EcdsaCurve`). -/
inductive EcdsaCurve
  | Secp256r1
  | Secp384r1
deriving DecidableEq

/-- Cryptographic algorithm used by a private key (`KeyAlgorithm`). -/
inductive KeyAlgorithm
  | Rsa
  | Ecdsa (curve : EcdsaCurve)
  | Ed25519
deriving DecidableEq

/-- An algorithm used to digitally sign content (`SignatureAlgorithm`). -/
inductive SignatureAlgorithm
  | RsaSha1
  | RsaSha256
  | RsaSha384
  | RsaSha512
  | EcdsaSha256
  | EcdsaSha384
  | Ed25519
  | NoSignature (digest : DigestAlgorithm)
deriving DecidableEq

/-- The verification primitives of the ring collaborator library that the
code can resolve (`ring::signature` statics named in `algorithm.rs`). -/
inductive VerificationAlgorithm
  | RSA_PKCS1_2048_8192_SHA1_FOR_LEGACY_USE_ONLY
  | RSA_PKCS1_2048_8192_SHA256
  | RSA_PKCS1_2048_8192_SHA384
  | RSA_PKCS1_2048_8192_SHA512
  | ED25519
  | ECDSA_P256_SHA256_ASN1
  | ECDSA_P256_SHA384_ASN1
  | ECDSA_P384_SHA256_ASN1
  | ECDSA_P384_SHA384_ASN1
deriving DecidableEq

/-- Deterministic rendering of an OID used where the source interpolates
the OID into an error message (the source prints the dotted-decimal
form; we render the content bytes, which is equally injective). -/
def oidDisplay (o : Oid) : String :=
  String.intercalate "." (o.map (fun n => toString n))

/-- Debug rendering of a digest algorithm as the Rust derive prints it. -/
def digestDebug : DigestAlgorithm → String
  | .Sha1 => "Sha1"
  | .Sha256 => "Sha256"
  | .Sha384 => "Sha384"
  | .Sha512 => "Sha512"

/-- The error variants of `X509CertificateError` exercised by the code
under proof. -/
inductive Error
  | UnknownDigestAlgorithm (msg : String)
  | UnknownSignatureAlgorithm (msg : String)
  | UnknownEllipticCurve (msg : String)
  | UnknownKeyAlgorithm (msg : String)
  | UnsupportedSignatureVerification (ka : KeyAlgorithm) (sa : SignatureAlgorithm)
  | UnhandledKeyAlgorithmParameters (msg : String)
  | PkcsEncodeTooShort
  | CertificateSignatureVerificationFailed
  | Asn1Parse
deriving DecidableEq

/-- `From<DigestAlgorithm> for Oid`. -/
def DigestAlgorithm.toOid : DigestAlgorithm → Oid
  | .Sha1 => OID_SHA1
  | .Sha256 => OID_SHA256
  | .Sha384 => OID_SHA384
  | .Sha512 => OID_SHA512

/-- `TryFrom<&Oid> for DigestAlgorithm`. -/
def DigestAlgorithm.fromOid (v : Oid) : Except Error DigestAlgorithm :=
  if v = OID_SHA1 then .ok .Sha1
  else if v = OID_SHA256 then .ok .Sha256
  else if v = OID_SHA384 then .ok .Sha384
  else if v = OID_SHA512 then .ok .Sha512
  else .error (.UnknownDigestAlgorithm (oidDisplay v))

/-- `From<SignatureAlgorithm> for Oid`. -/
def SignatureAlgorithm.toOid : SignatureAlgorithm → Oid
  | .RsaSha1 => OID_SHA1_RSA
  | .RsaSha256 => OID_SHA256_RSA
  | .RsaSha384 => OID_SHA384_RSA
  | .RsaSha512 => OID_SHA512_RSA
  | .EcdsaSha256 => OID_ECDSA_SHA256
  | .EcdsaSha384 => OID_ECDSA_SHA384
  | .Ed25519 => OID_ED25519_SIGNATURE_ALGORITHM
  | .NoSignature _ => OID_NO_SIGNATURE_ALGORITHM

/-- `TryFrom<&Oid> for SignatureAlgorithm`. -/
def SignatureAlgorithm.fromOid (v : Oid) : Except Error SignatureAlgorithm :=
  if v = OID_SHA1_RSA then .ok .RsaSha1
  else if v = OID_SHA256_RSA then .ok .RsaSha256
  else if v = OID_SHA384_RSA then .ok .RsaSha384
  else if v = OID_SHA512_RSA then .ok .RsaSha512
  else if v = OID_ECDSA_SHA256 then .ok .EcdsaSha256
  else if v = OID_ECDSA_SHA384 then .ok .EcdsaSha384
  else if v = OID_ED25519_SIGNATURE_ALGORITHM then .ok .Ed25519
  else .error (.UnknownSignatureAlgorithm (oidDisplay v))

/-- `EcdsaCurve::as_signature_oid`. -/
def EcdsaCurve.as_signature_oid : EcdsaCurve → Oid
  | .Secp256r1 => OID_EC_SECP256R1
  | .Secp384r1 => OID_EC_SECP384R1

/-- `TryFrom<&Oid> for EcdsaCurve`. -/
def EcdsaCurve.fromOid (v : Oid) : Except Error EcdsaCurve :=
  if v = OID_EC_SECP256R1 then .ok .Secp256r1
  else if v = OID_EC_SECP384R1 then .ok .Secp384r1
  else .error (.UnknownEllipticCurve (oidDisplay v))

/-- `TryFrom<&Oid> for KeyAlgorithm`.  A bare EC public key OID carries no
curve information, so the source defaults to an arbitrary curve
(secp384r1).  Both ED25519 OIDs are accepted. -/
def KeyAlgorithm.fromOid (v : Oid) : Except Error KeyAlgorithm :=
  if v = OID_RSA then .ok .Rsa
  else if v = OID_EC_PUBLIC_KEY then .ok (.Ecdsa .Secp384r1)
  else if v = OID_ED25519_KEY_AGREEMENT ∨ v = OID_ED25519_SIGNATURE_ALGORITHM then .ok .Ed25519
  else .error (.UnknownKeyAlgorithm (oidDisplay v))

/-- `From<KeyAlgorithm> for Oid`. -/
def KeyAlgorithm.toOid : KeyAlgorithm → Oid
  | .Rsa => OID_RSA
  | .Ecdsa _ => OID_EC_PUBLIC_KEY
  | .Ed25519 => OID_ED25519_KEY_AGREEMENT

/-- `rfc5280::AlgorithmIdentifier`: an OID plus optional raw parameter
bytes (the source stores parameters as captured ASN.1 bytes). -/
structure AlgorithmIdentifier where
  algorithm : Oid
  parameters : Option (List Nat)
deriving DecidableEq

/-- Modelled from the spec: the structured binary codec collaborator
decodes captured `AlgorithmIdentifier` parameter bytes as an OID (used by
`AlgorithmParameter::decode_oid`, whose body lives in the crate module
`rfc5280` that is not part of the provided sources).  It accepts exactly a
primitive OID TLV with a short-form (single byte, below 128) length. -/
def decodeOidParam : List Nat → Except Error Oid
  | 6 :: n :: rest => if n = rest.length ∧ n < 128 then .ok rest else .error .Asn1Parse
  | _ => .error .Asn1Parse

/-- `TryFrom<&AlgorithmIdentifier> for KeyAlgorithm`: resolve the bare
OID first, then apply the optional parameters (curve for ECDSA; only the
ASN.1 NULL bytes are tolerated for RSA and ED25519). -/
def KeyAlgorithm.fromAlgorithmIdentifier (v : AlgorithmIdentifier) : Except Error KeyAlgorithm := do
  let ka ← KeyAlgorithm.fromOid v.algorithm
  match v.parameters with
  | some params =>
    match ka with
    | .Ecdsa _ => do
      let curve_oid ← decodeOidParam params
      let curve ← EcdsaCurve.fromOid curve_oid
      pure (.Ecdsa curve)
    | .Ed25519 =>
      if params = [5, 0] then pure ka
      else .error (.UnhandledKeyAlgorithmParameters "on ED25519")
    | .Rsa =>
      if params = [5, 0] then pure ka
      else .error (.UnhandledKeyAlgorithmParameters "on RSA")
  | none => pure ka

/-- `TryFrom<&AlgorithmIdentifier> for SignatureAlgorithm` (parameters
are ignored; only the OID is consulted). -/
def SignatureAlgorithm.fromAlgorithmIdentifier (v : AlgorithmIdentifier) :
    Except Error SignatureAlgorithm :=
  SignatureAlgorithm.fromOid v.algorithm

/-- `SignatureAlgorithm::from_oid_and_digest_algorithm`. -/
def SignatureAlgorithm.from_oid_and_digest_algorithm (oid : Oid)
    (digest_algorithm : DigestAlgorithm) : Except Error SignatureAlgorithm :=
  match SignatureAlgorithm.fromOid oid with
  | .ok alg => .ok alg
  | .error _ =>
    match KeyAlgorithm.fromOid oid with
    | .ok key_alg =>
      match key_alg with
      | .Rsa =>
        match digest_algorithm with
        | .Sha1 => .ok .RsaSha1
        | .Sha256 => .ok .RsaSha256
        | .Sha384 => .ok .RsaSha384
        | .Sha512 => .ok .RsaSha512
      | .Ed25519 => .ok .Ed25519
      | .Ecdsa _ =>
        match digest_algorithm with
        | .Sha256 => .ok .EcdsaSha256
        | .Sha384 => .ok .EcdsaSha384
        | .Sha1 =>
          .error (.UnknownSignatureAlgorithm
            ("cannot use digest " ++ digestDebug .Sha1 ++ " with ECDSA"))
        | .Sha512 =>
          .error (.UnknownSignatureAlgorithm
            ("cannot use digest " ++ digestDebug .Sha512 ++ " with ECDSA"))
    | .error _ =>
      if oid = OID_NO_SIGNATURE_ALGORITHM then .ok (.NoSignature digest_algorithm)
      else
        .error (.UnknownSignatureAlgorithm
          ("do not know how to resolve " ++ oidDisplay oid ++ " to a signature algorithm"))

/-- `SignatureAlgorithm::resolve_verification_algorithm`. -/
def SignatureAlgorithm.resolve_verification_algorithm (sa : SignatureAlgorithm)
    (key_algorithm : KeyAlgorithm) : Except Error VerificationAlgorithm :=
  match key_algorithm with
  | .Rsa =>
    match sa with
    | .RsaSha1 => .ok .RSA_PKCS1_2048_8192_SHA1_FOR_LEGACY_USE_ONLY
    | .RsaSha256 => .ok .RSA_PKCS1_2048_8192_SHA256
    | .RsaSha384 => .ok .RSA_PKCS1_2048_8192_SHA384
    | .RsaSha512 => .ok .RSA_PKCS1_2048_8192_SHA512
    | alg => .error (.UnsupportedSignatureVerification key_algorithm alg)
  | .Ed25519 =>
    match sa with
    | .Ed25519 => .ok .ED25519
    | alg => .error (.UnsupportedSignatureVerification key_algorithm alg)
  | .Ecdsa curve =>
    match curve with
    | .Secp256r1 =>
      match sa with
      | .EcdsaSha256 => .ok .ECDSA_P256_SHA256_ASN1
      | .EcdsaSha384 => .ok .ECDSA_P256_SHA384_ASN1
      | alg => .error (.UnsupportedSignatureVerification key_algorithm alg)
    | .Secp384r1 =>
      match sa with
      | .EcdsaSha256 => .ok .ECDSA_P384_SHA256_ASN1
      | .EcdsaSha384 => .ok .ECDSA_P384_SHA384_ASN1
      | alg => .error (.UnsupportedSignatureVerification key_algorithm alg)

/-! ## EMSA-PKCS1-v1_5 encoding (`DigestAlgorithm::rsa_pkcs1_encode`) -/

/-- The digesting side of the ring collaborator: maps a digest algorithm
and a message to the raw digest bytes. -/
abbrev RingDigest := DigestAlgorithm → List Nat → List Nat

/-- Big-endian base-256 digits of a natural number (empty for zero). -/
def natBytes (n : Nat) : List Nat :=
  if h : n = 0 then [] else natBytes (n / 256) ++ [n % 256]
decreasing_by exact Nat.div_lt_self (Nat.pos_of_ne_zero h) (by omega)

/-- DER length octets: short form below 128, long form otherwise. -/
def derLenBytes (n : Nat) : List Nat :=
  if n < 128 then [n]
  else
    let digits := natBytes n
    (128 + digits.length) :: digits

/-- A DER TLV element with the given tag byte and content octets. -/
def derTLV (tag : Nat) (content : List Nat) : List Nat :=
  tag :: derLenBytes content.length ++ content

/-- Modelled from the spec: the structured binary codec DER-encodes an
`AlgorithmIdentifier` (SEQUENCE of the OID and, when present, the raw
parameter bytes); the codec itself lives in the collaborator bcder
library. -/
def algorithmIdentifierDer (a : AlgorithmIdentifier) : List Nat :=
  derTLV 48 (derTLV 6 a.algorithm ++ (match a.parameters with
    | none => []
    | some p => p))

/-- `From<DigestAlgorithm> for AlgorithmIdentifier`: no parameters. -/
def DigestAlgorithm.toAlgorithmIdentifier (d : DigestAlgorithm) : AlgorithmIdentifier :=
  { algorithm := d.toOid, parameters := none }

/-- Modelled from the spec: DER encoding of the `rfc3447::DigestInfo`
SEQUENCE (algorithm identifier followed by the digest OCTET STRING); the
`rfc3447` module is not part of the provided sources. -/
def digestInfoDer (d : DigestAlgorithm) (digest : List Nat) : List Nat :=
  derTLV 48 (algorithmIdentifierDer d.toAlgorithmIdentifier ++ derTLV 4 digest)

/-- `DigestAlgorithm::rsa_pkcs1_encode`: digest the message, DER-encode
the `DigestInfo`, and left-pad to the target length with
`00 01 FF .. FF 00`.  The source fills a `0xff` buffer and overwrites the
header, terminator and digest positions; the result is the concatenation
below. -/
def DigestAlgorithm.rsa_pkcs1_encode (ringDigest : RingDigest) (d : DigestAlgorithm)
    (message : List Nat) (target_length_in_bytes : Nat) : Except Error (List Nat) :=
  let digest := ringDigest d message
  let digest_info_der := digestInfoDer d digest
  let encoded_digest_len := digest_info_der.length
  if encoded_digest_len + 11 > target_length_in_bytes then
    .error .PkcsEncodeTooShort
  else
    let pad_len := target_length_in_bytes - encoded_digest_len - 3
    .ok ([0, 1] ++ List.replicate pad_len 255 ++ [0] ++ digest_info_der)

/-! ## Certificate data model

The `rfc5280`/`rfc3280` ASN.1 structures are crate modules that are not
part of the provided sources; the structures below are modelled from the
spec (section 3: TBS fields, signature algorithm, signature bit string,
and the retained raw TBS bytes). -/

/-- Modelled from the spec: one attribute (type OID and encoded value) of
a relative distinguished name. -/
structure AttributeTypeAndValue where
  typ : Oid
  value : List Nat
deriving DecidableEq

/-- A relative distinguished name: a set of attributes. -/
abbrev Rdn := List AttributeTypeAndValue

/-- Modelled from the spec: `rfc3280::Name`, an RDN sequence. -/
inductive Name
  | RdnSequence (seq : List Rdn)
deriving DecidableEq

/-- The RDN sequence of a name. -/
def Name.seq : Name → List Rdn
  | .RdnSequence s => s

/-- Modelled from the spec: the validity window, two timestamps. -/
structure Validity where
  not_before : Int
  not_after : Int
deriving DecidableEq

/-- Modelled from the spec: subject public key info (algorithm identifier
plus the raw bit-string key bytes). -/
structure SubjectPublicKeyInfo where
  algorithm : AlgorithmIdentifier
  subject_public_key : List Nat
deriving DecidableEq

/-- Modelled from the spec: one X.509 extension. -/
structure Extension where
  id : Oid
  critical : Option Bool
  value : List Nat
deriving DecidableEq

/-- Modelled from the spec: `rfc5280::TbsCertificate`.  `raw_data` holds
the raw encoded bytes of the TBS substructure as captured by the codec
during decoding (needed for signature verification). -/
structure TbsCertificate where
  version : Option Nat
  serial_number : Int
  signature : AlgorithmIdentifier
  issuer : Name
  validity : Validity
  subject : Name
  subject_public_key_info : SubjectPublicKeyInfo
  extensions : Option (List Extension)
  raw_data : Option (List Nat)
deriving DecidableEq

/-- Modelled from the spec: `rfc5280::Certificate` (TBS substructure,
outer signature algorithm, outer signature bit string). -/
structure Certificate where
  tbs_certificate : TbsCertificate
  signature_algorithm : AlgorithmIdentifier
  signature : List Nat
deriving DecidableEq

/-! ### The structured binary codec (collaborator), modelled

The generic ASN.1 decoder is an external collaborator ("structured binary
codec") per the spec.  We model a concrete certificate wire format:
every field is a length-prefixed blob.  As with the real bcder codec,
decoding is a pure function of the input bytes; the BER and DER modes
accept the same inputs of this canonical format and agree wherever both
succeed, which mirrors that DER is a restriction of BER. -/

/-- Read one length-prefixed blob: first byte is the length. -/
def readBlob : List Nat → Option (List Nat × List Nat)
  | [] => none
  | n :: rest => if n ≤ rest.length then some (rest.take n, rest.drop n) else none

/-- Decode an optional-parameters blob: empty means absent, a leading 1
introduces the raw parameter bytes. -/
def parseOptParams : List Nat → Option (Option (List Nat))
  | [] => some none
  | 1 :: p => some (some p)
  | _ => none

/-- A name as decoded by the modelled codec: the encoded bytes carried as
a single attribute value. -/
def nameOfBytes (b : List Nat) : Name :=
  .RdnSequence [[⟨[], b⟩]]

/-- A natural number from big-endian bytes. -/
def natFromBytes (b : List Nat) : Nat :=
  b.foldl (fun acc d => acc * 256 + d) 0

/-- Modelled from the spec: decode the TBS substructure.  The raw TBS
bytes are retained in `raw_data`. -/
def parseTbs (b : List Nat) : Option TbsCertificate := do
  let (serial, r1) ← readBlob b
  let (sigoid, r2) ← readBlob r1
  let (sigparams, r3) ← readBlob r2
  let (issuer, r4) ← readBlob r3
  let (nb, r5) ← readBlob r4
  let (na, r6) ← readBlob r5
  let (subject, r7) ← readBlob r6
  let (spkioid, r8) ← readBlob r7
  let (spkiparams, r9) ← readBlob r8
  let (pubkey, r10) ← readBlob r9
  if r10 = [] then do
    let sp ← parseOptParams sigparams
    let kp ← parseOptParams spkiparams
    some
      { version := some 2
        serial_number := (natFromBytes serial : Int)
        signature := ⟨sigoid, sp⟩
        issuer := nameOfBytes issuer
        validity := ⟨(natFromBytes nb : Int), (natFromBytes na : Int)⟩
        subject := nameOfBytes subject
        subject_public_key_info := ⟨⟨spkioid, kp⟩, pubkey⟩
        extensions := none
        raw_data := some b }
  else none

/-- Modelled from the spec: decode a whole certificate (TBS blob, outer
signature algorithm OID, optional outer parameters, signature blob). -/
def parseCertificate (data : List Nat) : Option Certificate := do
  let (tbsBytes, r1) ← readBlob data
  let (sigAlgOid, r2) ← readBlob r1
  let (sigAlgParams, r3) ← readBlob r2
  let (sig, r4) ← readBlob r3
  if r4 = [] then do
    let tbs ← parseTbs tbsBytes
    let p ← parseOptParams sigAlgParams
    some { tbs_certificate := tbs, signature_algorithm := ⟨sigAlgOid, p⟩, signature := sig }
  else none

/-- The two source encodings (`bcder::Mode`). -/
inductive Mode
  | Ber
  | Der
deriving DecidableEq

/-- Modelled from the spec: the codec decode entry point.  Both modes
accept the canonical format above and agree where both succeed. -/
def decodeCertificate (_mode : Mode) (data : List Nat) : Option Certificate :=
  parseCertificate data

/-! ## `X509Certificate` -/

/-- Newtype over the parsed ASN.1 certificate (`X509Certificate`).
Decode failures of the codec collaborator are modelled as `none`. -/
structure X509Certificate where
  toCert : Certificate
deriving DecidableEq

/-- `X509Certificate::from_der`. -/
def X509Certificate.from_der (data : List Nat) : Option X509Certificate :=
  (decodeCertificate .Der data).map X509Certificate.mk

/-- `X509Certificate::from_ber`. -/
def X509Certificate.from_ber (data : List Nat) : Option X509Certificate :=
  (decodeCertificate .Ber data).map X509Certificate.mk

/-- `X509Certificate::serial_number_asn1`. -/
def X509Certificate.serial_number_asn1 (c : X509Certificate) : Int :=
  c.toCert.tbs_certificate.serial_number

/-- `X509Certificate::subject_name`. -/
def X509Certificate.subject_name (c : X509Certificate) : Name :=
  c.toCert.tbs_certificate.subject

/-- `X509Certificate::issuer_name`. -/
def X509Certificate.issuer_name (c : X509Certificate) : Name :=
  c.toCert.tbs_certificate.issuer

/-- `X509Certificate::public_key_data`: the raw bit-string bytes of the
subject public key. -/
def X509Certificate.public_key_data (c : X509Certificate) : List Nat :=
  c.toCert.tbs_certificate.subject_public_key_info.subject_public_key

/-- `X509Certificate::compare_issuer`: a self-signed `self` has no
ordering; otherwise the certificate whose subject is the other's issuer
sorts first. -/
def X509Certificate.compare_issuer (self other : X509Certificate) : Ordering :=
  if self.toCert.tbs_certificate.subject = self.toCert.tbs_certificate.issuer then
    .eq
  else if self.toCert.tbs_certificate.issuer = other.toCert.tbs_certificate.subject then
    .gt
  else if self.toCert.tbs_certificate.subject = other.toCert.tbs_certificate.issuer then
    .lt
  else
    .eq

/-- `certificate_is_subset_of`: serials must match and every RDN of the
first name must appear in the second. -/
def certificate_is_subset_of (a_serial : Int) (a_name : Name) (b_serial : Int)
    (b_name : Name) : Bool :=
  if a_serial ≠ b_serial then false
  else
    match a_name, b_name with
    | .RdnSequence a_sequence, .RdnSequence b_sequence =>
      a_sequence.all (fun rdn => decide (rdn ∈ b_sequence))

/-! ## `CapturedX509Certificate` -/

/-- The retained original bytes, tagged by encoding (`OriginalData`). -/
inductive OriginalData
  | Ber (data : List Nat)
  | Der (data : List Nat)
deriving DecidableEq

/-- `CapturedX509Certificate`: the exact original byte buffer plus the
parsed certificate. -/
structure CapturedX509Certificate where
  original : OriginalData
  inner : X509Certificate
deriving DecidableEq

/-- `CapturedX509Certificate::from_der`. -/
def CapturedX509Certificate.from_der (data : List Nat) : Option CapturedX509Certificate :=
  (X509Certificate.from_der data).map (fun inner => ⟨.Der data, inner⟩)

/-- `CapturedX509Certificate::from_ber`. -/
def CapturedX509Certificate.from_ber (data : List Nat) : Option CapturedX509Certificate :=
  (X509Certificate.from_ber data).map (fun inner => ⟨.Ber data, inner⟩)

/-- `CapturedX509Certificate::constructed_data`. -/
def CapturedX509Certificate.constructed_data (c : CapturedX509Certificate) : List Nat :=
  match c.original with
  | .Ber data => data
  | .Der data => data

/-- The `PartialEq`/`Hash` relation on captured certificates: equality of
the exact original bytes. -/
def CapturedX509Certificate.beq (a b : CapturedX509Certificate) : Bool :=
  decide (a.constructed_data = b.constructed_data)

/-- The ring verification collaborator: a verification primitive, public
key bytes, message bytes and signature bytes to a pass/fail answer
(`ring::signature::UnparsedPublicKey::verify`). -/
abbrev RingVerify := VerificationAlgorithm → List Nat → List Nat → List Nat → Bool

/-- `CapturedX509Certificate::verify_signed_by_public_key`: re-decode
this certificate from the stored original bytes, take the raw TBS bytes
as the signed payload and the outer bit string as the signature, resolve
the verification primitive from the outer signature algorithm and the
subject key algorithm, and verify with the given key.  The two source
`expect` panics (re-parse failure, missing raw TBS bytes) are modelled as
the outer `none`. -/
def CapturedX509Certificate.verify_signed_by_public_key (rv : RingVerify)
    (self : CapturedX509Certificate) (public_key_data : List Nat) :
    Option (Except Error Unit) :=
  let reparsed := match self.original with
    | .Ber data => X509Certificate.from_ber data
    | .Der data => X509Certificate.from_der data
  match reparsed with
  | none => none
  | some this_cert =>
    match this_cert.toCert.tbs_certificate.raw_data with
    | none => none
    | some signed_data =>
      let signature := this_cert.toCert.signature
      some (do
        let key_algorithm ← KeyAlgorithm.fromAlgorithmIdentifier
          this_cert.toCert.tbs_certificate.subject_public_key_info.algorithm
        let signature_algorithm ← SignatureAlgorithm.fromAlgorithmIdentifier
          this_cert.toCert.signature_algorithm
        let verify_algorithm ← signature_algorithm.resolve_verification_algorithm key_algorithm
        if rv verify_algorithm public_key_data signed_data signature then
          Except.ok ()
        else
          Except.error Error.CertificateSignatureVerificationFailed)

/-- `CapturedX509Certificate::verify_signed_by_certificate`: extract the
issuer candidate public key bytes from its parsed view and delegate. -/
def CapturedX509Certificate.verify_signed_by_certificate (rv : RingVerify)
    (self other : CapturedX509Certificate) : Option (Except Error Unit) :=
  self.verify_signed_by_public_key rv other.inner.public_key_data

/-- `Result::is_ok` on the (possibly panicking) verification outcome. -/
def verifyOk (r : Option (Except Error Unit)) : Bool :=
  match r with
  | some (Except.ok _) => true
  | _ => false

/-- `CapturedX509Certificate::find_signing_certificate`: the first
candidate whose key verifies this certificate. -/
def CapturedX509Certificate.find_signing_certificate (rv : RingVerify)
    (self : CapturedX509Certificate) (certs : List CapturedX509Certificate) :
    Option CapturedX509Certificate :=
  certs.find? (fun candidate => verifyOk (self.verify_signed_by_certificate rv candidate))

/-- The dedup pass of `resolve_signing_chain`: drop any candidate equal
to `self` or already seen (byte equality), preserving order.  The seen
set is exactly the set of retained candidates. -/
def CapturedX509Certificate.buildRemaining (self : CapturedX509Certificate)
    (certs : List CapturedX509Certificate) : List CapturedX509Certificate :=
  certs.foldl
    (fun acc cert =>
      if cert.beq self || acc.any (fun s => s.beq cert) then acc else acc ++ [cert])
    []

/-- Removing an element that fails the filter predicate strictly shrinks
the list (the termination measure of the chain resolution loop). -/
def length_filter_lt_of_mem_not {α : Type} (p : α → Bool) :
    ∀ (l : List α) (x : α), x ∈ l → p x = false → (l.filter p).length < l.length := by
  intro l
  induction l with
  | nil => intro x hx; cases hx
  | cons a as ih =>
    intro x hx hpx
    rcases List.mem_cons.mp hx with h | h
    · subst h
      simp only [List.filter_cons, hpx, List.length_cons]
      exact Nat.lt_succ_of_le (List.length_filter_le p as)
    · by_cases hpa : p a = true
      · simp only [List.filter_cons, hpa, List.length_cons, if_true]
        exact Nat.succ_lt_succ (ih x h hpx)
      · simp only [List.filter_cons, Bool.not_eq_true] at hpa
        simp only [List.filter_cons, hpa, List.length_cons]
        exact Nat.lt_trans (ih x h hpx) (Nat.lt_succ_self _)

/-- The search loop of `resolve_signing_chain`: repeatedly find the
issuer of the current certificate in the remaining pool, append it to the
chain, remove it from the pool (all byte-equal copies) and continue from
it. -/
def CapturedX509Certificate.chainLoop (rv : RingVerify)
    (last_cert : CapturedX509Certificate) (remaining : List CapturedX509Certificate) :
    List CapturedX509Certificate :=
  match hfind : last_cert.find_signing_certificate rv remaining with
  | none => []
  | some issuer =>
    issuer :: CapturedX509Certificate.chainLoop rv issuer
      (remaining.filter (fun cert => ! cert.beq issuer))
termination_by remaining.length
decreasing_by
  exact length_filter_lt_of_mem_not _ remaining issuer
    (List.mem_of_find?_eq_some hfind)
    (by simp [CapturedX509Certificate.beq])

/-- `CapturedX509Certificate::resolve_signing_chain`. -/
def CapturedX509Certificate.resolve_signing_chain (rv : RingVerify)
    (self : CapturedX509Certificate) (certs : List CapturedX509Certificate) :
    List CapturedX509Certificate :=
  CapturedX509Certificate.chainLoop rv self (self.buildRemaining certs)

/-! ## Specification-side companion definitions

These definitions transcribe the wording of spec sentences (not the
source) and are compared against the source-translated functions
above. -/

/-- Spec wording for legal verification pairings: RSA signature variants
only with RSA keys; Ed25519 only with Ed25519 keys; ECDSA+SHA-256/384
with a P-256 or P-384 curve key, each curve accepting either digest
strength. -/
def allowedVerification (sa : SignatureAlgorithm) (ka : KeyAlgorithm) : Bool :=
  match ka, sa with
  | .Rsa, .RsaSha1 => true
  | .Rsa, .RsaSha256 => true
  | .Rsa, .RsaSha384 => true
  | .Rsa, .RsaSha512 => true
  | .Ed25519, .Ed25519 => true
  | .Ecdsa _, .EcdsaSha256 => true
  | .Ecdsa _, .EcdsaSha384 => true
  | _, _ => false

/-- `Except.isOk` specialised to our error type. -/
def isOkE {α : Type} : Except Error α → Bool
  | .ok _ => true
  | .error _ => false

/-- A concrete name from a single attribute byte. -/
def simpleName (b : Nat) : Name :=
  .RdnSequence [[⟨[85, 4, 3], [b]⟩]]

/-- A minimal concrete certificate with the given issuer and subject,
used to exercise `compare_issuer`. -/
def mkNamedCert (issuer subject : Name) : X509Certificate :=
  ⟨{ tbs_certificate :=
      { version := none
        serial_number := 0
        signature := ⟨[], none⟩
        issuer := issuer
        validity := ⟨0, 0⟩
        subject := subject
        subject_public_key_info := ⟨⟨[], none⟩, []⟩
        extensions := none
        raw_data := none }
     signature_algorithm := ⟨[], none⟩
     signature := [] }⟩

/-- Certificate A: issuer X, subject Y (not self-signed). -/
def exCertA : X509Certificate := mkNamedCert (simpleName 88) (simpleName 89)

/-- Certificate B: issuer Z, subject X. -/
def exCertB : X509Certificate := mkNamedCert (simpleName 90) (simpleName 88)

/-- The amended C8 wording: `Equal` when `a` is self-signed (its subject
equals its own issuer); otherwise `Greater` when a's issuer equals b's
subject (b issued a, so b sorts first); otherwise `Less` when a's subject
equals b's issuer (a issued b); otherwise `Equal`. -/
def compareIssuerAmended (a b : X509Certificate) : Ordering :=
  if a.subject_name = a.issuer_name then .eq
  else if a.issuer_name = b.subject_name then .gt
  else if a.subject_name = b.issuer_name then .lt
  else .eq

/-- The spec wording of the `resolve(oid, fallback_digest)` companion
resolver, transcribed as three ordered tiers: a direct signature-OID
match (digest ignored); a bare key-algorithm OID combined with the
fallback digest (RSA takes any of the four digests, Ed25519 ignores the
digest, ECDSA accepts only SHA-256/SHA-384); finally the fixed
no-signature OID wrapping the fallback digest.  Anything else is an
unknown-signature-algorithm error. -/
def fromOidAndDigestSpec (oid : Oid) (d : DigestAlgorithm) : Except Error SignatureAlgorithm :=
  if oid = OID_SHA1_RSA then .ok .RsaSha1
  else if oid = OID_SHA256_RSA then .ok .RsaSha256
  else if oid = OID_SHA384_RSA then .ok .RsaSha384
  else if oid = OID_SHA512_RSA then .ok .RsaSha512
  else if oid = OID_ECDSA_SHA256 then .ok .EcdsaSha256
  else if oid = OID_ECDSA_SHA384 then .ok .EcdsaSha384
  else if oid = OID_ED25519_SIGNATURE_ALGORITHM then .ok .Ed25519
  else if oid = OID_RSA then
    .ok (match d with
      | .Sha1 => .RsaSha1
      | .Sha256 => .RsaSha256
      | .Sha384 => .RsaSha384
      | .Sha512 => .RsaSha512)
  else if oid = OID_EC_PUBLIC_KEY then
    match d with
    | .Sha256 => .ok .EcdsaSha256
    | .Sha384 => .ok .EcdsaSha384
    | .Sha1 =>
      .error (.UnknownSignatureAlgorithm
        ("cannot use digest " ++ digestDebug .Sha1 ++ " with ECDSA"))
    | .Sha512 =>
      .error (.UnknownSignatureAlgorithm
        ("cannot use digest " ++ digestDebug .Sha512 ++ " with ECDSA"))
  else if oid = OID_ED25519_KEY_AGREEMENT then .ok .Ed25519
  else if oid = OID_NO_SIGNATURE_ALGORITHM then .ok (.NoSignature d)
  else
    .error (.UnknownSignatureAlgorithm
      ("do not know how to resolve " ++ oidDisplay oid ++ " to a signature algorithm"))

/-- A stand-in collaborator digest function used to exercise the padding
procedure at concrete inputs. -/
def toyDigest : RingDigest := fun _ m => List.replicate 32 (m.length % 256)

/-- The spec wording of the dedup pass of `resolve_signing_chain`:
deduplicate by full byte equality, preserving first-occurrence order
(accumulator-passing first-occurrence dedup). -/
def dedupSpecGo (acc : List CapturedX509Certificate) :
    List CapturedX509Certificate → List CapturedX509Certificate
  | [] => acc
  | x :: xs =>
    if acc.any (fun s => s.beq x) then dedupSpecGo acc xs
    else dedupSpecGo (acc ++ [x]) xs

/-- The spec wording of `resolve_signing_chain`: filter out candidates
byte-equal to `self`, deduplicate by byte equality preserving
first-occurrence order, then run the issuer-search loop from `self`. -/
def resolveSigningChainSpec (rv : RingVerify) (self : CapturedX509Certificate)
    (certs : List CapturedX509Certificate) : List CapturedX509Certificate :=
  CapturedX509Certificate.chainLoop rv self
    (dedupSpecGo [] (certs.filter (fun c => ! c.beq self)))

/-! ### Concrete certificates for witnesses

A three-certificate Ed25519 scenario in the modelled wire format: the
leaf is signed by the intermediate key, the intermediate by the root key,
and the root by its own key.  The stand-in ring collaborator accepts a
signature exactly when it is the public key followed by the message. -/

/-- One length-prefixed blob of the modelled wire format. -/
def blob (b : List Nat) : List Nat := b.length :: b

/-- Assemble TBS bytes in the modelled wire format (empty optional
parameters for both algorithm identifiers). -/
def mkTbsBytes (serial sigoid issuer nb na subject keyoid pub : List Nat) : List Nat :=
  blob serial ++ blob sigoid ++ blob [] ++ blob issuer ++ blob nb ++ blob na ++
    blob subject ++ blob keyoid ++ blob [] ++ blob pub

/-- Assemble whole-certificate bytes in the modelled wire format. -/
def mkCertBytes (tbs sigoid sig : List Nat) : List Nat :=
  blob tbs ++ blob sigoid ++ blob [] ++ blob sig

/-- Root TBS: subject and issuer both the root name, public key `[3]`. -/
def rootTbsBytes : List Nat :=
  mkTbsBytes [1] OID_ED25519_SIGNATURE_ALGORITHM [82] [0] [9] [82]
    OID_ED25519_KEY_AGREEMENT [3]

/-- Intermediate TBS: issued by the root, public key `[2]`. -/
def imTbsBytes : List Nat :=
  mkTbsBytes [2] OID_ED25519_SIGNATURE_ALGORITHM [82] [0] [9] [73]
    OID_ED25519_KEY_AGREEMENT [2]

/-- Leaf TBS: issued by the intermediate, public key `[1]`. -/
def leafTbsBytes : List Nat :=
  mkTbsBytes [3] OID_ED25519_SIGNATURE_ALGORITHM [73] [0] [9] [76]
    OID_ED25519_KEY_AGREEMENT [1]

/-- Root certificate bytes, self-signed under the toy verifier. -/
def rootBytes : List Nat :=
  mkCertBytes rootTbsBytes OID_ED25519_SIGNATURE_ALGORITHM ([3] ++ rootTbsBytes)

/-- Intermediate certificate bytes, signed by the root key `[3]`. -/
def imBytes : List Nat :=
  mkCertBytes imTbsBytes OID_ED25519_SIGNATURE_ALGORITHM ([3] ++ imTbsBytes)

/-- Leaf certificate bytes, signed by the intermediate key `[2]`. -/
def leafBytes : List Nat :=
  mkCertBytes leafTbsBytes OID_ED25519_SIGNATURE_ALGORITHM ([2] ++ leafTbsBytes)

/-- A stand-in ring verification collaborator: a signature passes exactly
when it equals the public key followed by the message. -/
def toyVerify : RingVerify := fun _ key msg sig => decide (sig = key ++ msg)

/-- Fallback captured certificate (never actually reached: the concrete
byte strings above decode successfully). -/
def dummyCaptured : CapturedX509Certificate :=
  ⟨.Der [], mkNamedCert (simpleName 0) (simpleName 0)⟩

/-- The leaf certificate, captured from DER. -/
def exLeaf : CapturedX509Certificate :=
  (CapturedX509Certificate.from_der leafBytes).getD dummyCaptured

/-- The intermediate certificate, captured from DER. -/
def exIm : CapturedX509Certificate :=
  (CapturedX509Certificate.from_der imBytes).getD dummyCaptured

/-- The root certificate, captured from DER. -/
def exRoot : CapturedX509Certificate :=
  (CapturedX509Certificate.from_der rootBytes).getD dummyCaptured

/-- The leaf certificate captured from the same bytes tagged as BER. -/
def exLeafBer : CapturedX509Certificate :=
  (CapturedX509Certificate.from_ber leafBytes).getD dummyCaptured

/-- Reduction of the monadic bind on a successful `Except` value. -/
theorem exceptBind_ok {α β : Type} (a : α) (f : α → Except Error β) :
    (Except.ok a >>= f) = f a := rfl

/-- Reduction of the monadic bind on a failed `Except` value. -/
theorem exceptBind_error {α β : Type} (e : Error) (f : α → Except Error β) :
    ((Except.error e : Except Error α) >>= f) = .error e := rfl

/-- C2: `resolve_verification_algorithm` succeeds exactly on the legal
pairings listed by the spec; every other pair (including `NoSignature`
with any key) yields `UnsupportedSignatureVerification` carrying both the
key algorithm and the offending signature algorithm. -/
theorem claim_c2_resolve_verification_classification :
    ∀ (sa : SignatureAlgorithm) (ka : KeyAlgorithm),
      if allowedVerification sa ka then
        isOkE (sa.resolve_verification_algorithm ka) = true
      else
        sa.resolve_verification_algorithm ka =
          .error (.UnsupportedSignatureVerification ka sa) := by
  intro sa ka
  rcases ka with _ | c | _ <;> try cases c
  all_goals cases sa <;>
    simp [allowedVerification, SignatureAlgorithm.resolve_verification_algorithm, isOkE]

/-- C9: `certificate_is_subset_of` is true iff the serials are equal and
every RDN of the first sequence appears in the second; in particular any
serial mismatch gives false. -/
theorem claim_c9_certificate_is_subset_of :
    ∀ (a_serial b_serial : Int) (a_name b_name : Name),
      (certificate_is_subset_of a_serial a_name b_serial b_name = true ↔
        (a_serial = b_serial ∧ ∀ rdn ∈ a_name.seq, rdn ∈ b_name.seq)) ∧
      (a_serial ≠ b_serial →
        certificate_is_subset_of a_serial a_name b_serial b_name = false) := by
  intro a_serial b_serial a_name b_name
  cases a_name with
  | RdnSequence a_sequence =>
    cases b_name with
    | RdnSequence b_sequence =>
      constructor
      · constructor
        · intro h
          by_cases hs : a_serial = b_serial
          · refine ⟨hs, ?_⟩
            intro rdn hrdn
            simp only [certificate_is_subset_of, hs, ne_eq, not_true_eq_false,
              if_false] at h
            have := List.all_eq_true.mp h rdn hrdn
            exact of_decide_eq_true this
          · simp [certificate_is_subset_of, hs] at h
        · rintro ⟨hs, hall⟩
          simp only [certificate_is_subset_of, hs, ne_eq, not_true_eq_false, if_false]
          exact List.all_eq_true.mpr (fun rdn hrdn => decide_eq_true (hall rdn hrdn))
      · intro hs
        simp [certificate_is_subset_of, hs]

/-- C9 witness: differing serials force a false result even on
identical names. -/
theorem claim_c9_witness :
    certificate_is_subset_of 1 (simpleName 88) 2 (simpleName 88) = false :=
  (claim_c9_certificate_is_subset_of 1 2 (simpleName 88) (simpleName 88)).2 (by decide)

/-- C8 counterexample: certificate A's issuer equals certificate B's
subject, yet `compare_issuer` returns `Greater`, not `Less` as the claim
states (the source sorts the issuing certificate first, so a certificate
issued by the other compares greater). -/
theorem claim_c8_counterexample :
    exCertA.issuer_name = exCertB.subject_name ∧
    X509Certificate.compare_issuer exCertA exCertB = Ordering.gt ∧
    ¬ X509Certificate.compare_issuer exCertA exCertB = Ordering.lt := by
  refine ⟨rfl, rfl, ?_⟩
  decide


/-- C8 amended: `compare_issuer` agrees everywhere with the amended
ordering rule. -/
theorem claim_c8_compare_issuer_amended :
    ∀ (a b : X509Certificate),
      X509Certificate.compare_issuer a b = compareIssuerAmended a b := by
  intro a b
  rfl

/-- C5: a bare EC public key OID resolves to the placeholder curve
P-384; a full identifier with parameters decodes the parameters as a
curve OID and overrides the placeholder, failing with an unknown-curve
error off the P-256/P-384 table; RSA and Ed25519 accept absent or ASN.1
NULL (`05 00`) parameters and reject anything else as unhandled. -/
theorem claim_c5_key_algorithm_parameter_resolution :
    (KeyAlgorithm.fromOid OID_EC_PUBLIC_KEY = .ok (.Ecdsa .Secp384r1)) ∧
    (∀ o : Oid, o.length < 128 →
      KeyAlgorithm.fromAlgorithmIdentifier ⟨OID_EC_PUBLIC_KEY, some (6 :: o.length :: o)⟩ =
        (if o = OID_EC_SECP256R1 then .ok (.Ecdsa .Secp256r1)
         else if o = OID_EC_SECP384R1 then .ok (.Ecdsa .Secp384r1)
         else .error (.UnknownEllipticCurve (oidDisplay o)))) ∧
    (KeyAlgorithm.fromAlgorithmIdentifier ⟨OID_RSA, none⟩ = .ok .Rsa) ∧
    (KeyAlgorithm.fromAlgorithmIdentifier ⟨OID_RSA, some [5, 0]⟩ = .ok .Rsa) ∧
    (∀ p, p ≠ [5, 0] →
      KeyAlgorithm.fromAlgorithmIdentifier ⟨OID_RSA, some p⟩ =
        .error (.UnhandledKeyAlgorithmParameters "on RSA")) ∧
    (KeyAlgorithm.fromAlgorithmIdentifier ⟨OID_ED25519_KEY_AGREEMENT, none⟩ = .ok .Ed25519) ∧
    (KeyAlgorithm.fromAlgorithmIdentifier ⟨OID_ED25519_KEY_AGREEMENT, some [5, 0]⟩ =
      .ok .Ed25519) ∧
    (∀ p, p ≠ [5, 0] →
      KeyAlgorithm.fromAlgorithmIdentifier ⟨OID_ED25519_KEY_AGREEMENT, some p⟩ =
        .error (.UnhandledKeyAlgorithmParameters "on ED25519")) := by
  refine ⟨by decide, ?_, by decide, by decide, ?_, by decide, by decide, ?_⟩
  · intro o hlen
    have hdec : decodeOidParam (6 :: o.length :: o) = .ok o := by
      simp [decodeOidParam, hlen]
    simp only [KeyAlgorithm.fromAlgorithmIdentifier]
    rw [show KeyAlgorithm.fromOid OID_EC_PUBLIC_KEY =
      Except.ok (KeyAlgorithm.Ecdsa EcdsaCurve.Secp384r1) from rfl]
    rw [exceptBind_ok]
    simp only [hdec, exceptBind_ok]
    unfold EcdsaCurve.fromOid
    split_ifs with h1 h2 <;> simp [h1]
  · intro p hp
    simp only [KeyAlgorithm.fromAlgorithmIdentifier]
    rw [show KeyAlgorithm.fromOid OID_RSA = Except.ok KeyAlgorithm.Rsa from rfl]
    rw [exceptBind_ok]
    simp [hp]
  · intro p hp
    simp only [KeyAlgorithm.fromAlgorithmIdentifier]
    rw [show KeyAlgorithm.fromOid OID_ED25519_KEY_AGREEMENT =
      Except.ok KeyAlgorithm.Ed25519 from rfl]
    rw [exceptBind_ok]
    simp [hp]

/-- C5 witness at concrete parameter bytes: the P-256 curve OID
overrides the bare-OID placeholder, and a non-NULL RSA parameter is
rejected. -/
theorem claim_c5_witness :
    ((8 : Nat) < 128 ∧
      KeyAlgorithm.fromAlgorithmIdentifier
          ⟨OID_EC_PUBLIC_KEY, some (6 :: 8 :: OID_EC_SECP256R1)⟩ =
        (if OID_EC_SECP256R1 = OID_EC_SECP256R1 then .ok (.Ecdsa .Secp256r1)
         else if OID_EC_SECP256R1 = OID_EC_SECP384R1 then .ok (.Ecdsa .Secp384r1)
         else .error (.UnknownEllipticCurve (oidDisplay OID_EC_SECP256R1)))) ∧
    KeyAlgorithm.fromAlgorithmIdentifier ⟨OID_RSA, some [4, 0]⟩ =
      .error (.UnhandledKeyAlgorithmParameters "on RSA") :=
  ⟨⟨by decide,
    claim_c5_key_algorithm_parameter_resolution.2.1 OID_EC_SECP256R1 (by decide)⟩,
    claim_c5_key_algorithm_parameter_resolution.2.2.2.2.1 [4, 0] (by decide)⟩

/-- C6: every OID of the interoperability table round-trips with its
algorithm variant in both directions under its own category, with the
single exception of `NoSignature`, whose every digest choice shares the
one no-signature OID; RSA and Ed25519 key algorithms each map to a single
OID that resolves back to them. -/
theorem claim_c6_oid_round_trips :
    (∀ d : DigestAlgorithm, DigestAlgorithm.fromOid d.toOid = .ok d) ∧
    (∀ (o : Oid) (d : DigestAlgorithm),
      DigestAlgorithm.fromOid o = .ok d → d.toOid = o) ∧
    (∀ sa : SignatureAlgorithm, (∀ dd, sa ≠ .NoSignature dd) →
      SignatureAlgorithm.fromOid sa.toOid = .ok sa) ∧
    (∀ (o : Oid) (sa : SignatureAlgorithm),
      SignatureAlgorithm.fromOid o = .ok sa → sa.toOid = o) ∧
    (∀ c : EcdsaCurve, EcdsaCurve.fromOid c.as_signature_oid = .ok c) ∧
    (∀ (o : Oid) (c : EcdsaCurve), EcdsaCurve.fromOid o = .ok c → c.as_signature_oid = o) ∧
    (KeyAlgorithm.toOid .Rsa = OID_RSA ∧ KeyAlgorithm.fromOid OID_RSA = .ok .Rsa) ∧
    (KeyAlgorithm.toOid .Ed25519 = OID_ED25519_KEY_AGREEMENT ∧
      KeyAlgorithm.fromOid OID_ED25519_KEY_AGREEMENT = .ok .Ed25519) ∧
    (∀ c : EcdsaCurve, KeyAlgorithm.toOid (.Ecdsa c) = OID_EC_PUBLIC_KEY ∧
      KeyAlgorithm.fromOid OID_EC_PUBLIC_KEY = .ok (.Ecdsa .Secp384r1)) ∧
    (∀ d d' : DigestAlgorithm,
      SignatureAlgorithm.toOid (.NoSignature d) = SignatureAlgorithm.toOid (.NoSignature d')) ∧
    (∀ d : DigestAlgorithm,
      SignatureAlgorithm.from_oid_and_digest_algorithm OID_NO_SIGNATURE_ALGORITHM d =
        .ok (.NoSignature d)) := by
  refine ⟨?_, ?_, ?_, ?_, ?_, ?_, by decide, by decide, ?_, ?_, ?_⟩
  · intro d; cases d <;> decide
  · intro o d h
    simp only [DigestAlgorithm.fromOid] at h
    split_ifs at h with h1 h2 h3 h4 <;> injection h with h <;> subst h <;>
      simp_all [DigestAlgorithm.toOid]
  · intro sa hns
    cases sa with
    | NoSignature dd => exact absurd rfl (hns dd)
    | _ => decide
  · intro o sa h
    simp only [SignatureAlgorithm.fromOid] at h
    split_ifs at h with h1 h2 h3 h4 h5 h6 h7 <;> injection h with h <;> subst h <;>
      simp_all [SignatureAlgorithm.toOid]
  · intro c; cases c <;> decide
  · intro o c h
    simp only [EcdsaCurve.fromOid] at h
    split_ifs at h with h1 h2 <;> injection h with h <;> subst h <;>
      simp_all [EcdsaCurve.as_signature_oid]
  · intro c; exact ⟨rfl, by decide⟩
  · intro d d'; rfl
  · intro d; cases d <;> decide

/-- C6 witness at concrete OIDs: the SHA-256 OID resolves and converts
back, the RSA+SHA-256 OID resolves and converts back, and the P-384
curve OID resolves and converts back. -/
theorem claim_c6_witness :
    DigestAlgorithm.toOid .Sha256 = OID_SHA256 ∧
    SignatureAlgorithm.toOid .RsaSha256 = OID_SHA256_RSA ∧
    EcdsaCurve.as_signature_oid .Secp384r1 = OID_EC_SECP384R1 :=
  ⟨claim_c6_oid_round_trips.2.1 OID_SHA256 .Sha256 (by decide),
   claim_c6_oid_round_trips.2.2.2.1 OID_SHA256_RSA .RsaSha256 (by decide),
   claim_c6_oid_round_trips.2.2.2.2.2.1 OID_EC_SECP384R1 .Secp384r1 (by decide)⟩


/-- C3: `from_oid_and_digest_algorithm` agrees everywhere with the
three-tier resolution described by the spec. -/
theorem claim_c3_from_oid_and_digest_three_tiers :
    ∀ (oid : Oid) (d : DigestAlgorithm),
      SignatureAlgorithm.from_oid_and_digest_algorithm oid d = fromOidAndDigestSpec oid d := by
  intro oid d
  by_cases h1 : oid = OID_SHA1_RSA
  · subst h1; cases d <;> decide
  by_cases h2 : oid = OID_SHA256_RSA
  · subst h2; cases d <;> decide
  by_cases h3 : oid = OID_SHA384_RSA
  · subst h3; cases d <;> decide
  by_cases h4 : oid = OID_SHA512_RSA
  · subst h4; cases d <;> decide
  by_cases h5 : oid = OID_ECDSA_SHA256
  · subst h5; cases d <;> decide
  by_cases h6 : oid = OID_ECDSA_SHA384
  · subst h6; cases d <;> decide
  by_cases h7 : oid = OID_ED25519_SIGNATURE_ALGORITHM
  · subst h7; cases d <;> decide
  by_cases h8 : oid = OID_RSA
  · subst h8; cases d <;> decide
  by_cases h9 : oid = OID_EC_PUBLIC_KEY
  · subst h9; cases d <;> decide
  by_cases h10 : oid = OID_ED25519_KEY_AGREEMENT
  · subst h10; cases d <;> decide
  by_cases h11 : oid = OID_NO_SIGNATURE_ALGORITHM
  · subst h11; cases d <;> decide
  have hs : SignatureAlgorithm.fromOid oid =
      .error (.UnknownSignatureAlgorithm (oidDisplay oid)) := by
    simp [SignatureAlgorithm.fromOid, h1, h2, h3, h4, h5, h6, h7]
  have hk : KeyAlgorithm.fromOid oid =
      .error (.UnknownKeyAlgorithm (oidDisplay oid)) := by
    simp [KeyAlgorithm.fromOid, h8, h9, h10, h7]
  unfold SignatureAlgorithm.from_oid_and_digest_algorithm fromOidAndDigestSpec
  rw [hs, hk]
  simp [h1, h2, h3, h4, h5, h6, h7, h8, h9, h10, h11]

/-- C4: `rsa_pkcs1_encode` fails with the padding-too-short error
exactly when the DER-encoded `DigestInfo` plus 11 bytes exceeds the
target length; otherwise the output has exactly the target length and is
`00 01`, at least eight `FF` bytes, a single `00`, then the DER
`DigestInfo`, whose trailing bytes are the raw digest of the message. -/
theorem claim_c4_emsa_pkcs1_encode :
    ∀ (ringDigest : RingDigest) (d : DigestAlgorithm) (m : List Nat) (L : Nat),
      (DigestAlgorithm.rsa_pkcs1_encode ringDigest d m L = .error .PkcsEncodeTooShort ↔
        L < (digestInfoDer d (ringDigest d m)).length + 11) ∧
      ((digestInfoDer d (ringDigest d m)).length + 11 ≤ L →
        DigestAlgorithm.rsa_pkcs1_encode ringDigest d m L =
          .ok ([0, 1] ++
            List.replicate (L - (digestInfoDer d (ringDigest d m)).length - 3) 255 ++
            [0] ++ digestInfoDer d (ringDigest d m)) ∧
        8 ≤ L - (digestInfoDer d (ringDigest d m)).length - 3 ∧
        (∀ out, DigestAlgorithm.rsa_pkcs1_encode ringDigest d m L = .ok out →
          out.length = L ∧ out.take 2 = [0, 1] ∧
          ∃ pre, out = pre ++ ringDigest d m)) := by
  intro ringDigest d m L
  set dinfo := digestInfoDer d (ringDigest d m) with hdinfo
  have hend : ∃ pre0, dinfo = pre0 ++ ringDigest d m := by
    refine ⟨48 :: derLenBytes (algorithmIdentifierDer d.toAlgorithmIdentifier ++
      derTLV 4 (ringDigest d m)).length ++
      (algorithmIdentifierDer d.toAlgorithmIdentifier ++
        (4 :: derLenBytes (ringDigest d m).length)), ?_⟩
    simp [hdinfo, digestInfoDer, derTLV]
  constructor
  · constructor
    · intro h
      by_cases hc : dinfo.length + 11 > L
      · omega
      · simp only [DigestAlgorithm.rsa_pkcs1_encode, ← hdinfo, if_neg hc] at h
        cases h
    · intro h
      simp only [DigestAlgorithm.rsa_pkcs1_encode, ← hdinfo,
        if_pos (show dinfo.length + 11 > L from by omega)]
  · intro h
    have hc : ¬ dinfo.length + 11 > L := by omega
    have hok : DigestAlgorithm.rsa_pkcs1_encode ringDigest d m L =
        .ok ([0, 1] ++ List.replicate (L - dinfo.length - 3) 255 ++ [0] ++ dinfo) := by
      simp only [DigestAlgorithm.rsa_pkcs1_encode, ← hdinfo, if_neg hc]
    refine ⟨hok, by omega, ?_⟩
    intro out hout
    rw [hok] at hout
    injection hout with hout
    subst hout
    refine ⟨?_, ?_, ?_⟩
    · simp [List.length_append, List.length_replicate]
      omega
    · have h8 : 8 ≤ L - dinfo.length - 3 := by omega
      cases hrep : L - dinfo.length - 3 with
      | zero => omega
      | succ k => simp [hrep, List.replicate_succ]
    · obtain ⟨pre0, hpre0⟩ := hend
      exact ⟨[0, 1] ++ List.replicate (L - dinfo.length - 3) 255 ++ [0] ++ pre0, by
        simp [hpre0]⟩

/-- C4 witness at SHA-256, a concrete message and a 128-byte target: the
encoding succeeds with the spelled-out layout. -/
theorem claim_c4_witness :
    (digestInfoDer .Sha256 (toyDigest .Sha256 [100, 101])).length + 11 ≤ 128 ∧
    DigestAlgorithm.rsa_pkcs1_encode toyDigest .Sha256 [100, 101] 128 =
      .ok ([0, 1] ++
        List.replicate (128 - (digestInfoDer .Sha256 (toyDigest .Sha256 [100, 101])).length - 3)
          255 ++ [0] ++ digestInfoDer .Sha256 (toyDigest .Sha256 [100, 101])) :=
  ⟨by decide,
    ((claim_c4_emsa_pkcs1_encode toyDigest .Sha256 [100, 101] 128).2 (by decide)).1⟩


/-- C1: the outcome of `verify_signed_by_public_key` depends only on the
stored original bytes and the key: two captured certificates with equal
`constructed_data` verify identically for every key and every behaviour
of the ring collaborator, regardless of their in-memory parsed views or
origin tags. -/
theorem claim_c1_verify_determined_by_constructed_data :
    ∀ (rv : RingVerify) (a b : CapturedX509Certificate) (k : List Nat),
      a.constructed_data = b.constructed_data →
      a.verify_signed_by_public_key rv k = b.verify_signed_by_public_key rv k := by
  have key : ∀ c : CapturedX509Certificate,
      (match c.original with
        | .Ber data => X509Certificate.from_ber data
        | .Der data => X509Certificate.from_der data) =
      (parseCertificate c.constructed_data).map X509Certificate.mk := by
    intro c
    cases hc : c.original <;>
      simp [CapturedX509Certificate.constructed_data, hc, X509Certificate.from_ber,
        X509Certificate.from_der, decodeCertificate]
  intro rv a b k h
  unfold CapturedX509Certificate.verify_signed_by_public_key
  rw [key a, key b, h]

/-- C1 witness: the same concrete bytes captured once as BER and once as
DER verify identically under the toy collaborator and a concrete key. -/
theorem claim_c1_witness :
    exLeafBer.constructed_data = exLeaf.constructed_data ∧
    exLeafBer.verify_signed_by_public_key toyVerify [2] =
      exLeaf.verify_signed_by_public_key toyVerify [2] :=
  ⟨rfl, claim_c1_verify_determined_by_constructed_data toyVerify exLeafBer exLeaf [2] rfl⟩

/-- Byte-equality is reflexive. -/
theorem beq_refl (c : CapturedX509Certificate) : c.beq c = true := by
  simp [CapturedX509Certificate.beq]

/-- Byte-equality is symmetric. -/
theorem beq_symm (a b : CapturedX509Certificate) : a.beq b = b.beq a := by
  simp [CapturedX509Certificate.beq, eq_comm]

/-- Failing byte-equality is exactly inequality of the original bytes. -/
theorem beq_eq_false_iff (a b : CapturedX509Certificate) :
    a.beq b = false ↔ a.constructed_data ≠ b.constructed_data := by
  simp [CapturedX509Certificate.beq]

/-- One unfolding of the chain resolution loop. -/
theorem chainLoop_eq (rv : RingVerify) (last_cert : CapturedX509Certificate)
    (remaining : List CapturedX509Certificate) :
    CapturedX509Certificate.chainLoop rv last_cert remaining =
      match last_cert.find_signing_certificate rv remaining with
      | none => []
      | some issuer =>
        issuer :: CapturedX509Certificate.chainLoop rv issuer
          (remaining.filter (fun cert => ! cert.beq issuer)) := by
  rw [CapturedX509Certificate.chainLoop]
  split
  next heq => rw [heq]
  next issuer heq => rw [heq]

/-- Every certificate in the loop result was drawn from the pool. -/
theorem chainLoop_mem :
    ∀ (n : Nat) (rv : RingVerify) (last_cert : CapturedX509Certificate)
      (remaining : List CapturedX509Certificate), remaining.length ≤ n →
      ∀ c ∈ CapturedX509Certificate.chainLoop rv last_cert remaining, c ∈ remaining := by
  intro n
  induction n with
  | zero =>
    intro rv last_cert remaining hlen c hc
    have : remaining = [] := List.length_eq_zero.mp (Nat.le_zero.mp hlen)
    subst this
    rw [chainLoop_eq] at hc
    simp [CapturedX509Certificate.find_signing_certificate] at hc
  | succ n ih =>
    intro rv last_cert remaining hlen c hc
    rw [chainLoop_eq] at hc
    cases hfind : last_cert.find_signing_certificate rv remaining with
    | none => rw [hfind] at hc; cases hc
    | some issuer =>
      rw [hfind] at hc
      have hmem : issuer ∈ remaining := List.mem_of_find?_eq_some hfind
      rcases List.mem_cons.mp hc with h | h
      · subst h; exact hmem
      · have hlt : (remaining.filter (fun cert => ! cert.beq issuer)).length <
            remaining.length :=
          length_filter_lt_of_mem_not _ remaining issuer hmem (by simp [beq_refl])
        have := ih rv issuer (remaining.filter (fun cert => ! cert.beq issuer))
          (by omega) c h
        exact List.mem_of_mem_filter this

/-- The loop result is no longer than the pool. -/
theorem chainLoop_length :
    ∀ (n : Nat) (rv : RingVerify) (last_cert : CapturedX509Certificate)
      (remaining : List CapturedX509Certificate), remaining.length ≤ n →
      (CapturedX509Certificate.chainLoop rv last_cert remaining).length ≤
        remaining.length := by
  intro n
  induction n with
  | zero =>
    intro rv last_cert remaining hlen
    have : remaining = [] := List.length_eq_zero.mp (Nat.le_zero.mp hlen)
    subst this
    rw [chainLoop_eq]
    simp [CapturedX509Certificate.find_signing_certificate]
  | succ n ih =>
    intro rv last_cert remaining hlen
    rw [chainLoop_eq]
    cases hfind : last_cert.find_signing_certificate rv remaining with
    | none => simp
    | some issuer =>
      have hmem : issuer ∈ remaining := List.mem_of_find?_eq_some hfind
      have hlt : (remaining.filter (fun cert => ! cert.beq issuer)).length <
          remaining.length :=
        length_filter_lt_of_mem_not _ remaining issuer hmem (by simp [beq_refl])
      have := ih rv issuer (remaining.filter (fun cert => ! cert.beq issuer)) (by omega)
      simp only [List.length_cons]
      omega

/-- Distinct original bytes along the loop result. -/
theorem chainLoop_pairwise :
    ∀ (n : Nat) (rv : RingVerify) (last_cert : CapturedX509Certificate)
      (remaining : List CapturedX509Certificate), remaining.length ≤ n →
      (CapturedX509Certificate.chainLoop rv last_cert remaining).Pairwise
        (fun a b => a.constructed_data ≠ b.constructed_data) := by
  intro n
  induction n with
  | zero =>
    intro rv last_cert remaining hlen
    have : remaining = [] := List.length_eq_zero.mp (Nat.le_zero.mp hlen)
    subst this
    rw [chainLoop_eq]
    simp [CapturedX509Certificate.find_signing_certificate]
  | succ n ih =>
    intro rv last_cert remaining hlen
    rw [chainLoop_eq]
    cases hfind : last_cert.find_signing_certificate rv remaining with
    | none => simp
    | some issuer =>
      have hmem : issuer ∈ remaining := List.mem_of_find?_eq_some hfind
      have hlt : (remaining.filter (fun cert => ! cert.beq issuer)).length <
          remaining.length :=
        length_filter_lt_of_mem_not _ remaining issuer hmem (by simp [beq_refl])
      refine List.Pairwise.cons ?_ (ih rv issuer _ (by omega))
      intro b hb
      have hbmem := chainLoop_mem n rv issuer
        (remaining.filter (fun cert => ! cert.beq issuer)) (by omega) b hb
      have hfil := List.of_mem_filter hbmem
      have : b.beq issuer = false := by
        cases hbeq : b.beq issuer
        · rfl
        · rw [hbeq] at hfil; cases hfil
      have hne : b.constructed_data ≠ issuer.constructed_data :=
        (beq_eq_false_iff b issuer).mp this
      exact fun hcontra => hne (hcontra.symm)

/-- Every certificate retained by the dedup pass fails byte-equality
with `self`, provided the accumulator already does. -/
theorem buildRemaining_not_self (self : CapturedX509Certificate) :
    ∀ (certs acc : List CapturedX509Certificate),
      (∀ x ∈ acc, x.beq self = false) →
      ∀ x ∈ certs.foldl
        (fun acc cert =>
          if cert.beq self || acc.any (fun s => s.beq cert) then acc else acc ++ [cert])
        acc, x.beq self = false := by
  intro certs
  induction certs with
  | nil => intro acc hacc x hx; exact hacc x hx
  | cons c cs ih =>
    intro acc hacc x hx
    simp only [List.foldl_cons] at hx
    by_cases hc : c.beq self = true
    · rw [if_pos (by simp [hc])] at hx
      exact ih acc hacc x hx
    · have hc' : c.beq self = false := by
        cases h : c.beq self
        · rfl
        · exact absurd h hc
      by_cases hany : acc.any (fun s => s.beq c) = true
      · rw [if_pos (by simp [hc', hany])] at hx
        exact ih acc hacc x hx
      · rw [if_neg (by simp [hc']; simpa using hany)] at hx
        refine ih (acc ++ [c]) ?_ x hx
        intro y hy
        rcases List.mem_append.mp hy with h | h
        · exact hacc y h
        · rcases List.mem_singleton.mp h with rfl
          exact hc'

/-- The interleaved skip-or-keep fold of the source equals the spec
wording: filter out `self`, then first-occurrence dedup. -/
theorem buildRemaining_eq_spec (self : CapturedX509Certificate) :
    ∀ (certs acc : List CapturedX509Certificate),
      certs.foldl
        (fun acc cert =>
          if cert.beq self || acc.any (fun s => s.beq cert) then acc else acc ++ [cert])
        acc =
      dedupSpecGo acc (certs.filter (fun c => ! c.beq self)) := by
  intro certs
  induction certs with
  | nil => intro acc; rfl
  | cons c cs ih =>
    intro acc
    simp only [List.foldl_cons, List.filter_cons]
    by_cases hc : c.beq self = true
    · rw [if_pos (by simp [hc])]
      rw [if_neg (show ¬ (! c.beq self) = true by simp [hc])]
      exact ih acc
    · have hc' : c.beq self = false := by
        cases h : c.beq self
        · rfl
        · exact absurd h hc
      by_cases hany : acc.any (fun s => s.beq c) = true
      · rw [if_pos (by simp [hc', hany])]
        rw [if_pos (show (! c.beq self) = true by simp [hc'])]
        simp only [dedupSpecGo]
        rw [if_pos hany]
        exact ih acc
      · have hany' : acc.any (fun s => s.beq c) = false := by
          cases h : acc.any (fun s => s.beq c)
          · rfl
          · exact absurd h hany
        rw [if_neg (by simp [hc', hany'])]
        rw [if_pos (show (! c.beq self) = true by simp [hc'])]
        simp only [dedupSpecGo]
        rw [if_neg (by simp [hany'])]
        exact ih (acc ++ [c])

/-- C7: `resolve_signing_chain` is exactly the spec algorithm
(byte-equality dedup excluding `self`, then repeated
`find_signing_certificate` with removal), and on a three-certificate
scenario where the leaf is signed by the intermediate and the
intermediate by the root, and the root does not verify the leaf, it
returns `[intermediate, root]`; dropping the intermediate yields the
empty chain. -/
theorem claim_c7_resolve_signing_chain
    (rv : RingVerify) (leaf im root : CapturedX509Certificate)
    (hli : leaf.beq im = false) (hlr : leaf.beq root = false)
    (hir : im.beq root = false)
    (h1 : verifyOk (leaf.verify_signed_by_certificate rv im) = true)
    (h2 : verifyOk (im.verify_signed_by_certificate rv root) = true)
    (h3 : verifyOk (leaf.verify_signed_by_certificate rv root) = false) :
    (CapturedX509Certificate.resolve_signing_chain = resolveSigningChainSpec) ∧
    CapturedX509Certificate.resolve_signing_chain rv leaf [leaf, im, root] = [im, root] ∧
    CapturedX509Certificate.resolve_signing_chain rv leaf [leaf, root] = [] := by
  have hil : im.beq leaf = false := by rw [← beq_symm]; exact hli
  have hrl : root.beq leaf = false := by rw [← beq_symm]; exact hlr
  have hri : root.beq im = false := by rw [← beq_symm]; exact hir
  refine ⟨?_, ?_, ?_⟩
  · funext rv0 self certs
    unfold CapturedX509Certificate.resolve_signing_chain resolveSigningChainSpec
      CapturedX509Certificate.buildRemaining
    rw [buildRemaining_eq_spec]
  · have hpool : leaf.buildRemaining [leaf, im, root] = [im, root] := by
      simp [CapturedX509Certificate.buildRemaining, beq_refl, hil, hrl, hir]
    unfold CapturedX509Certificate.resolve_signing_chain
    rw [hpool]
    rw [chainLoop_eq]
    have hfind1 : leaf.find_signing_certificate rv [im, root] = some im := by
      simp [CapturedX509Certificate.find_signing_certificate, List.find?, h1]
    rw [hfind1]
    have hfil1 : [im, root].filter (fun cert => ! cert.beq im) = [root] := by
      rw [List.filter_cons, List.filter_cons, List.filter_nil]
      simp [beq_refl, hri]
    simp only [hfil1]
    rw [chainLoop_eq]
    have hfind2 : im.find_signing_certificate rv [root] = some root := by
      simp [CapturedX509Certificate.find_signing_certificate, List.find?, h2]
    rw [hfind2]
    have hfil2 : [root].filter (fun cert => ! cert.beq root) = [] := by
      simp [List.filter, beq_refl]
    simp only [hfil2]
    rw [chainLoop_eq]
    simp [CapturedX509Certificate.find_signing_certificate]
  · have hpool : leaf.buildRemaining [leaf, root] = [root] := by
      simp [CapturedX509Certificate.buildRemaining, beq_refl, hrl]
    unfold CapturedX509Certificate.resolve_signing_chain
    rw [hpool]
    rw [chainLoop_eq]
    have hfind : leaf.find_signing_certificate rv [root] = none := by
      simp [CapturedX509Certificate.find_signing_certificate, List.find?, h3]
    rw [hfind]

/-- C7 witness: the concrete three-certificate Ed25519 scenario under
the toy collaborator. -/
theorem claim_c7_witness :
    (CapturedX509Certificate.resolve_signing_chain = resolveSigningChainSpec) ∧
    CapturedX509Certificate.resolve_signing_chain toyVerify exLeaf [exLeaf, exIm, exRoot] =
      [exIm, exRoot] ∧
    CapturedX509Certificate.resolve_signing_chain toyVerify exLeaf [exLeaf, exRoot] = [] :=
  claim_c7_resolve_signing_chain toyVerify exLeaf exIm exRoot
    (by decide) (by decide) (by decide) (by decide) (by decide) (by decide)

/-- C10: the resolved chain never repeats original bytes, never contains
a certificate byte-equal to `self`, and is bounded in length by the
deduplicated pool of candidates distinct from `self` — in particular the
resolution loop terminates. -/
theorem claim_c10_chain_invariants
    (rv : RingVerify) (self : CapturedX509Certificate)
    (certs : List CapturedX509Certificate) :
    ((self.resolve_signing_chain rv certs).Pairwise
      fun a b => a.constructed_data ≠ b.constructed_data) ∧
    (∀ c ∈ self.resolve_signing_chain rv certs,
      c.constructed_data ≠ self.constructed_data) ∧
    (self.resolve_signing_chain rv certs).length ≤ (self.buildRemaining certs).length := by
  refine ⟨?_, ?_, ?_⟩
  · exact chainLoop_pairwise (self.buildRemaining certs).length rv self _ le_rfl
  · intro c hc
    have hmem : c ∈ self.buildRemaining certs :=
      chainLoop_mem (self.buildRemaining certs).length rv self _ le_rfl c hc
    have : c.beq self = false :=
      buildRemaining_not_self self certs [] (by intro x hx; cases hx) c hmem
    exact (beq_eq_false_iff c self).mp this
  · exact chainLoop_length (self.buildRemaining certs).length rv self _ le_rfl

/-- C10 witness: the invariants at the concrete scenario. -/
theorem claim_c10_witness :
    ((exLeaf.resolve_signing_chain toyVerify [exLeaf, exIm, exRoot]).Pairwise
      fun a b => a.constructed_data ≠ b.constructed_data) ∧
    (exLeaf.resolve_signing_chain toyVerify [exLeaf, exIm, exRoot]).length ≤
      (exLeaf.buildRemaining [exLeaf, exIm, exRoot]).length :=
  ⟨(claim_c10_chain_invariants toyVerify exLeaf [exLeaf, exIm, exRoot]).1,
   (claim_c10_chain_invariants toyVerify exLeaf [exLeaf, exIm, exRoot]).2.2⟩

end X509
